import Mathlib

/-!
Shallow embedding of the opok/shutter_tester Arduino firmware.

The repository holds the released sketch `shutter_tester.ino` (header version
2.0) together with two revisions of the same sketch carrying header version
2.1 (the variant with correction coefficients and the guarded right-aligned
millisecond formatter) and an early 16x2-display variant.  Namespace `V20`
below embeds `shutter_tester.ino`; namespace `V21` embeds the version 2.1
revision with the correction coefficients.

Modelling conventions:
* `micros()` timestamps are natural numbers; the wraparound of the 32-bit
  `unsigned long` subtraction is explicit (`usub`).
* C `double` arithmetic is modelled by exact rational arithmetic; the
  conversion from `double` to an unsigned integer type truncates (`Int.floor`
  followed by `Int.toNat`).
* C `int` is 16 bits wide on the AVR target; the conversion from
  `unsigned long` to `int` is `i16` (reduction modulo 2^16 into
  [-32768, 32767]).
* The LCD is an external capability; a call sequence sent to it is a
  `List DispOp`.
* Interrupt attachment is modelled as the armed polarity of each channel
  (`ChMode`); a scheduled one-shot `Timer` reset callback is the
  `watchdogPending` flag, and the elapse of its delay is the delivery of
  that callback (`timerFire`).
-/

/-- One operation sent to the LCD: a cursor move or a piece of printed text.
Columns are integers because the sketches compute them in C `int`
arithmetic. -/
inductive DispOp where
  | setCursor (col : Int) (row : Nat)
  | printStr (s : String)
  deriving DecidableEq

/-- Text printed by a sequence of display operations, with cursor moves
ignored. -/
def opsText : List DispOp → String
  | [] => ""
  | DispOp.printStr s :: rest => s ++ opsText rest
  | DispOp.setCursor _ _ :: rest => opsText rest

/-- Subtraction of 32-bit `unsigned long` values, wrapping modulo 2^32. -/
def usub (a b : Nat) : Nat := (a + (4294967296 - b % 4294967296)) % 4294967296

/-- Conversion of an unsigned value to C `int`, which is 16 bits wide on the
AVR target; the value is reduced modulo 2^16 into [-32768, 32767]. -/
def i16 (n : Nat) : Int := (((n + 32768) % 65536 : Nat) : Int) - 32768

/-- Value of `floor(log10(x))` as the sketches use it.  For positive `x` this
is `Nat.log 10 x`.  The C expression is undefined for `x ≤ 0`; the only place
the sketches can reach it with a nonpositive argument is the unguarded v2.0
travel formatter, and the model returns 0 there. -/
def intLog10Floor (x : Int) : Int := (Nat.log 10 x.toNat : Int)

/-- The Arduino `round` macro on a nonnegative `double`,
`(long)((x) + 0.5)`: truncation of x + 1/2, i.e. rounding half up. -/
def roundHalfUp (q : ℚ) : Nat := (⌊q + 1/2⌋).toNat

/-- Reciprocal shutter speed printed by the sub-second branch of the exposure
formatters: `round(1.0/((double)exposure/ONE_SECOND))`. -/
def recipRound (exposure : Nat) : Nat :=
  roundHalfUp (1 / ((exposure : ℚ) / 1000000))

/-- Armed edge polarity of one sensor channel.  `armedForRise` is the initial
attachment (the handler that records the uncovered-sensor timestamp),
`armedForFall` awaits the covering edge, and `done` means that the
interrupt is detached until the next reset. -/
inductive ChMode where
  | armedForRise
  | armedForFall
  | done
  deriving DecidableEq

/-- Shared mutable state of a sketch: the four timestamp slots `s1[0]`,
`s1[1]`, `s2[0]`, `s2[1]` (0 is the unset sentinel), the `dataReady` flag,
the armed polarity of each channel, and whether a one-shot reset callback is
scheduled on the `Timer`. -/
structure MeasState where
  s1rise : Nat
  s1fall : Nat
  s2rise : Nat
  s2fall : Nat
  dataReady : Bool
  ch1 : ChMode
  ch2 : ChMode
  watchdogPending : Bool
  deriving DecidableEq

/-- State right after `setup()`: all timestamps cleared, `dataReady` false,
both channels attached at their initial polarity, no pending timer. -/
def initState : MeasState :=
  ⟨0, 0, 0, 0, false, ChMode.armedForRise, ChMode.armedForRise, false⟩

/-- Completion condition tested by `loop()` (identical in v2.0 and v2.1):
`!dataReady && s1[0] != 0 && s1[1] != 0 && s2[0] != 0 && s2[1] != 0`. -/
def dataComplete (st : MeasState) : Bool :=
  !st.dataReady && (st.s1rise != 0) && (st.s1fall != 0) &&
    (st.s2rise != 0) && (st.s2fall != 0)

/-- Completion poll of `loop()` (identical in v2.0 and v2.1): when the
completion condition holds it latches `dataReady` and reports true, and
`onDataReady` then schedules the delayed reset on the timer; otherwise the
state is unchanged. -/
def pollCompletion (st : MeasState) : Bool × MeasState :=
  if dataComplete st = true then
    (true, { st with dataReady := true, watchdogPending := true })
  else (false, st)

namespace V20

/-- ONE_SECOND constant of the sketches, in microseconds. -/
def ONE_SECOND : Nat := 1000000

/-- Scale factor applied to the travel time by v2.0 line 75,
`travel = (unsigned long) 1.2 * travel`: the cast binds to the literal, so
the factor is the truncation of 1.2. -/
def travelScale : Nat := (⌊(12/10 : ℚ)⌋).toNat

/-- Exposure half of `printResults` (v2.0 lines 69-73): below one second it
prints "1/" and the rounded reciprocal; otherwise the whole milliseconds
followed by "ms". -/
def exposureOps (exposure : Nat) : List DispOp :=
  if exposure < ONE_SECOND then
    [DispOp.printStr "1/", DispOp.printStr (toString (recipRound exposure))]
  else
    [DispOp.printStr (toString (exposure / 1000)), DispOp.printStr "ms"]

/-- Divisor of the reciprocal taken in the sub-second branch of the exposure
formatters: the C code divides 1.0 by `(double)exposure/ONE_SECOND`, and no
branch below one second excludes a zero exposure.  `none` means the
sub-second branch is not taken, so no reciprocal is computed. -/
def exposureRecipDivisor (exposure : Nat) : Option ℚ :=
  if exposure < ONE_SECOND then some ((exposure : ℚ) / 1000000) else none

/-- Display operations of `printResults(row, exposure, travel)` (v2.0 lines
65-84): clear the row, print the exposure, then print the travel time scaled
by `travelScale` as right-aligned milliseconds with two fractional digits. -/
def printResults (row : Nat) (exposure travel0 : Nat) : List DispOp :=
  DispOp.setCursor 0 row :: DispOp.printStr "                " ::
    DispOp.setCursor 0 row ::
    (exposureOps exposure ++
      (let travel := travelScale * travel0
       let whole : Int := i16 (travel / 1000)
       let fraction : Int := i16 ((travel - travel / 1000 * 1000) / 10)
       DispOp.setCursor (10 - intLog10Floor whole) row ::
         DispOp.printStr (toString whole) :: DispOp.printStr "." ::
         ((if fraction < 10 then [DispOp.printStr "0"] else []) ++
           [DispOp.printStr (toString fraction), DispOp.printStr "ms"])))

/-- Interrupt handler for the falling pin edge of sensor 1, i.e. for light
first reaching the sensor (v2.0 lines 105-113): with `dataReady` set it
returns at once; otherwise it records `s1[0]` only when still unset and
re-attaches the channel for the opposite edge. -/
def s1_down (st : MeasState) (now : Nat) : MeasState :=
  if st.dataReady = true then st
  else
    { st with s1rise := if st.s1rise = 0 then now else st.s1rise,
              ch1 := ChMode.armedForFall }

/-- Interrupt handler for the rising pin edge of sensor 1, i.e. for light
leaving the sensor (v2.0 lines 115-121): records `s1[1]` only when unset and
detaches the channel. -/
def s1_up (st : MeasState) (now : Nat) : MeasState :=
  if st.dataReady = true then st
  else
    { st with s1fall := if st.s1fall = 0 then now else st.s1fall,
              ch1 := ChMode.done }

/-- Interrupt handler for the falling pin edge of sensor 2 (v2.0 lines
123-130), symmetric to `s1_down`. -/
def s2_down (st : MeasState) (now : Nat) : MeasState :=
  if st.dataReady = true then st
  else
    { st with s2rise := if st.s2rise = 0 then now else st.s2rise,
              ch2 := ChMode.armedForFall }

/-- Interrupt handler for the rising pin edge of sensor 2 (v2.0 lines
132-138), symmetric to `s1_up`. -/
def s2_up (st : MeasState) (now : Nat) : MeasState :=
  if st.dataReady = true then st
  else
    { st with s2fall := if st.s2fall = 0 then now else st.s2fall,
              ch2 := ChMode.done }

/-- Effect of `initInterrupts()` (v2.0 lines 140-146): both channels are
re-attached at their initial polarity. -/
def initInterrupts (st : MeasState) : MeasState :=
  { st with ch1 := ChMode.armedForRise, ch2 := ChMode.armedForRise }

/-- Effect of `resetMeasuredData` (v2.0 lines 55-63): clear all four
timestamp slots, clear `dataReady`, then `initInterrupts()`. -/
def resetMeasuredData (st : MeasState) : MeasState :=
  initInterrupts
    { st with s1rise := 0, s1fall := 0, s2rise := 0, s2fall := 0,
              dataReady := false }

/-- Display operations produced by `onDataReady` (v2.0 lines 86-103):
exposures and travel times are derived from the raw timestamps with 32-bit
unsigned subtraction and handed to `printResults` for the two rows. -/
def onDataReady (st : MeasState) : List DispOp :=
  printResults 0 (usub st.s1fall st.s1rise)
      (usub (max st.s1rise st.s2rise) (min st.s1rise st.s2rise)) ++
    printResults 1 (usub st.s2fall st.s2rise)
      (usub (max st.s2fall st.s1fall) (min st.s2fall st.s1fall))

/-- One pass of `loop()` (v2.0 lines 165-173): the poll, together with the
display operations it causes (empty unless the completion test fires). -/
def loopStep (st : MeasState) : MeasState × List DispOp :=
  ((pollCompletion st).2,
    if (pollCompletion st).1 = true then onDataReady st else [])

end V20

/-- Events interleaving with the v2.0 main loop: a hardware edge delivered to
one of the four interrupt handlers (carrying the `micros()` value read in the
handler), one completion poll of `loop()`, and the firing of a scheduled
`resetMeasuredData` timer callback. -/
inductive Ev where
  | e1rise (t : Nat)
  | e1fall (t : Nat)
  | e2rise (t : Nat)
  | e2fall (t : Nat)
  | poll
  | timerFire
  deriving DecidableEq

namespace V20

/-- State transition of one event against the v2.0 sketch. -/
def step (st : MeasState) : Ev → MeasState
  | Ev.e1rise t => s1_down st t
  | Ev.e1fall t => s1_up st t
  | Ev.e2rise t => s2_down st t
  | Ev.e2fall t => s2_up st t
  | Ev.poll => (pollCompletion st).2
  | Ev.timerFire =>
      if st.watchdogPending = true then
        { resetMeasuredData st with watchdogPending := false }
      else st

/-- State reached from `setup()` by a sequence of events. -/
def run (evs : List Ev) : MeasState := evs.foldl step initState

end V20

namespace V21

/-- HOLE_X_DISTANCE constant of v2.1: inter-sensor distance in millimetres,
an integer macro. -/
def HOLE_X_DISTANCE : Nat := 30

/-- HOLE_DIAMETER constant of v2.1 (millimetres). -/
def HOLE_DIAMETER : ℚ := 1

/-- TRAVEL_CORR_COEF constant of v2.1, the literal 1.15. -/
def TRAVEL_CORR_COEF : ℚ := 115/100

/-- EXPOSURE_CORR_COEF constant of v2.1, the literal 0.6. -/
def EXPOSURE_CORR_COEF : ℚ := 6/10

/-- S1_CORR_COEF constant of v2.1. -/
def S1_CORR_COEF : ℚ := 1

/-- S2_CORR_COEF constant of v2.1. -/
def S2_CORR_COEF : ℚ := 1

/-- Corrected travel time of v2.1 line 138,
`travel1 = TRAVEL_CORR_COEF * (36/HOLE_X_DISTANCE) * travel1raw`, with C
semantics: `36/HOLE_X_DISTANCE` is integer division of the two integer
operands, the product is then carried out in `double` (exact rationals
here), and the assignment to `unsigned long` truncates. -/
def travelCorrected (raw : Nat) : Nat :=
  (⌊TRAVEL_CORR_COEF * ((36 / HOLE_X_DISTANCE : Nat) : ℚ) * (raw : ℚ)⌋).toNat

/-- Corrected exposure of v2.1 lines 149-150,
`sensorCorr * (expRaw - EXPOSURE_CORR_COEF * HOLE_DIAMETER * travel2 / 36)`
computed in `double` and truncated on assignment to `unsigned long`. -/
def expCorrected (sensorCorr : ℚ) (expRaw travel2 : Nat) : Nat :=
  (⌊sensorCorr *
      ((expRaw : ℚ) -
        EXPOSURE_CORR_COEF * HOLE_DIAMETER * (travel2 : ℚ) / 36)⌋).toNat

/-- Cursor column chosen by `printRightAlignedMs` (v2.1 lines 99-102): for a
positive whole-millisecond part the column is `10 - floor(log10(whole))`,
and a whole part that is not positive is special-cased to column 10 so that
`log10` is never applied to it.  `whole` is the C `int` variable, i.e. the
`i16` image of `microseconds / 1000`. -/
def printRightAlignedMs_col (microseconds : Nat) : Int :=
  if 0 < i16 (microseconds / 1000) then
    10 - intLog10Floor (i16 (microseconds / 1000))
  else 10

/-- Display operations of `printRightAlignedMs(row, microseconds)` (v2.1
lines 96-108): the value is split into whole milliseconds and two decimal
digits from the remaining microseconds, printed at the right-aligned
cursor column with a zero-padded fraction. -/
def printRightAlignedMs (row : Nat) (microseconds : Nat) : List DispOp :=
  DispOp.setCursor (printRightAlignedMs_col microseconds) row ::
    DispOp.printStr (toString (i16 (microseconds / 1000))) ::
    DispOp.printStr "." ::
    ((if i16 (microseconds % 1000 / 10) < 10 then [DispOp.printStr "0"]
      else []) ++
      [DispOp.printStr (toString (i16 (microseconds % 1000 / 10))),
        DispOp.printStr "ms"])

/-- Display operations of `printExposure` (v2.1 lines 110-120): clear the
row, print the description, print the reciprocal speed when below one
second, then always the right-aligned milliseconds. -/
def printExposure (row : Nat) (description : String) (exposure : Nat) :
    List DispOp :=
  DispOp.setCursor 0 row :: DispOp.printStr "                " ::
    DispOp.setCursor 0 row :: DispOp.printStr description ::
    DispOp.printStr " " ::
    ((if exposure < V20.ONE_SECOND then
        [DispOp.printStr "1/", DispOp.printStr (toString (recipRound exposure))]
      else []) ++
      printRightAlignedMs row exposure)

/-- Display operations of `printTravel` (v2.1 lines 122-129): clear the row,
print the description, then the right-aligned milliseconds. -/
def printTravel (row : Nat) (description : String) (travel : Nat) :
    List DispOp :=
  DispOp.setCursor 0 row :: DispOp.printStr "                " ::
    DispOp.setCursor 0 row :: DispOp.printStr description ::
    DispOp.printStr " " :: printRightAlignedMs row travel

/-- Display operations of `onDataReady` (v2.1 lines 131-163): raw travels
and exposures from 32-bit unsigned subtraction, the correction formulas of
lines 138-150 (note both exposures use the closing travel `travel2`), and
the four output rows. -/
def onDataReady (st : MeasState) : List DispOp :=
  let travel1 := travelCorrected
    (usub (max st.s1rise st.s2rise) (min st.s1rise st.s2rise))
  let travel2 := travelCorrected
    (usub (max st.s2fall st.s1fall) (min st.s2fall st.s1fall))
  printExposure 0 "E1" (expCorrected S1_CORR_COEF (usub st.s1fall st.s1rise) travel2) ++
    printExposure 1 "E2" (expCorrected S2_CORR_COEF (usub st.s2fall st.s2rise) travel2) ++
    printTravel 2 "Open" travel1 ++ printTravel 3 "Close" travel2

/-- Interrupt handler for the falling pin edge of sensor 1 in v2.1 (lines
165-176): as in v2.0 it records `s1[0]` only when unset, and in addition it
schedules a one-shot `resetMeasuredData` timer callback after about two
seconds, the stall watchdog. -/
def s1_down (st : MeasState) (now : Nat) : MeasState :=
  if st.dataReady = true then st
  else
    { st with s1rise := if st.s1rise = 0 then now else st.s1rise,
              ch1 := ChMode.armedForFall, watchdogPending := true }

/-- Effect of `resetMeasuredData` in v2.1 (lines 86-94), identical to the
v2.0 function: clear the four slots, clear `dataReady`, re-attach both
channels at their initial polarity. -/
def resetMeasuredData (st : MeasState) : MeasState :=
  { st with s1rise := 0, s1fall := 0, s2rise := 0, s2fall := 0,
            dataReady := false,
            ch1 := ChMode.armedForRise, ch2 := ChMode.armedForRise }

/-- Delivery of a scheduled `resetMeasuredData` timer callback from
`timer.update()`; the one-shot callback is consumed. -/
def timerFire (st : MeasState) : MeasState :=
  if st.watchdogPending = true then
    { resetMeasuredData st with watchdogPending := false }
  else st

/-- One pass of `loop()` in v2.1 (lines 228-236), identical in structure to
v2.0 but displaying through the v2.1 formatters. -/
def loopStep (st : MeasState) : MeasState × List DispOp :=
  ((pollCompletion st).2,
    if (pollCompletion st).1 = true then onDataReady st else [])

end V21

/-- Modelled from the spec: `travel_open_us = |s1.rise_us − s2.rise_us| ×
(sensor_nominal_span / hole_spacing) × travel_correction`, with span 36 mm,
spacing 30 mm and travel correction 1.15, in exact rational arithmetic, for
comparison with `V21.travelCorrected` from the code. -/
def travel_open_spec (r1 r2 : Nat) : ℚ :=
  ((max r1 r2 - min r1 r2 : Nat) : ℚ) * ((36 : ℚ) / 30) * (115/100)

/-- Sample state of a completed cycle with valid ordering. -/
def sampleComplete : MeasState :=
  ⟨1000, 6000, 1300, 6300, false, ChMode.done, ChMode.done, false⟩

/-- Sample state of a completed cycle in which the fall of sensor 1 precedes
its rise. -/
def sampleInvalid : MeasState :=
  ⟨1000, 500, 5000, 6300, false, ChMode.done, ChMode.done, false⟩

lemma dataComplete_iff (st : MeasState) :
    dataComplete st = true ↔
      st.dataReady = false ∧ st.s1rise ≠ 0 ∧ st.s1fall ≠ 0 ∧
        st.s2rise ≠ 0 ∧ st.s2fall ≠ 0 := by
  simp [dataComplete, and_assoc]

lemma ready_poll (st : MeasState) (h : st.dataReady = true) :
    pollCompletion st = (false, st) := by
  simp [pollCompletion, dataComplete, h]

lemma poll_fst_ready (st : MeasState) (h : (pollCompletion st).1 = true) :
    (pollCompletion st).2.dataReady = true := by
  by_cases hc : dataComplete st = true
  · simp [pollCompletion, hc]
  · simp [pollCompletion, hc] at h

lemma ready_step (st : MeasState) (e : Ev) (h : st.dataReady = true)
    (he : e ≠ Ev.timerFire) : V20.step st e = st := by
  cases e with
  | e1rise t => simp [V20.step, V20.s1_down, h]
  | e1fall t => simp [V20.step, V20.s1_up, h]
  | e2rise t => simp [V20.step, V20.s2_down, h]
  | e2fall t => simp [V20.step, V20.s2_up, h]
  | poll => simp [V20.step, ready_poll st h]
  | timerFire => exact absurd rfl he

lemma ready_foldl (evs : List Ev) (st : MeasState) (h : st.dataReady = true)
    (hne : ∀ e ∈ evs, e ≠ Ev.timerFire) :
    List.foldl V20.step st evs = st := by
  induction evs with
  | nil => rfl
  | cons e rest ih =>
      rw [List.foldl_cons, ready_step st e h (hne e (List.mem_cons_self e rest))]
      exact ih fun x hx => hne x (List.mem_cons_of_mem e hx)

lemma i16_small (n : Nat) (h : n ≤ 32767) : i16 n = (n : Int) := by
  unfold i16
  rw [Nat.mod_eq_of_lt (by omega)]
  push_cast
  ring

lemma recip_eq (e : Nat) :
    recipRound e = roundHalfUp ((1000000 : ℚ) / (e : ℚ)) := by
  rw [recipRound, one_div_div]

/-- C1: the spec formula gives 300 × 1.2 × 1.15 = 414 µs of opening travel
for rise timestamps 1000 and 1300, but the code divides 36 by the integer
macro HOLE_X_DISTANCE = 30 in integer arithmetic, so the extrapolation
factor collapses to 1 and the displayed travel is 345 µs; likewise the v2.0
sketch casts the literal 1.2 to unsigned long before multiplying, so its
scale factor is 1.  This contradicts the comments of the sketches, which
announce multiplication by 1.2. -/
theorem c1_travel_truncation :
    (36 / V21.HOLE_X_DISTANCE : Nat) = 1 ∧
    V20.travelScale = 1 ∧
    V21.travelCorrected (usub (max 1000 1300) (min 1000 1300)) = 345 ∧
    travel_open_spec 1000 1300 = 414 ∧
    ((V21.travelCorrected (usub (max 1000 1300) (min 1000 1300)) : ℚ) ≠
      travel_open_spec 1000 1300) := by
  have husub : usub (max 1000 1300) (min 1000 1300) = 300 := by decide
  have htc : V21.travelCorrected 300 = 345 := by
    have h : ⌊V21.TRAVEL_CORR_COEF * ((36 / V21.HOLE_X_DISTANCE : Nat) : ℚ) *
        ((300 : Nat) : ℚ)⌋ = 345 := by
      norm_num [V21.TRAVEL_CORR_COEF, V21.HOLE_X_DISTANCE]
    rw [V21.travelCorrected, h]
    rfl
  have hsp : travel_open_spec 1000 1300 = 414 := by
    rw [travel_open_spec,
      show (max 1000 1300 - min 1000 1300 : Nat) = 300 from by decide]
    norm_num
  have hscale : V20.travelScale = 1 := by
    have h : ⌊(12/10 : ℚ)⌋ = 1 := by norm_num
    rw [V20.travelScale, h]
    rfl
  refine ⟨by decide, hscale, by rw [husub]; exact htc, hsp, ?_⟩
  rw [husub, htc, hsp]
  norm_num

/-- C2: the exposure half of printResults renders "1/" followed by the
half-up rounding of 1000000/e below one second (so 125 µs renders as
"1/8000"), and the whole-millisecond value followed by "ms" otherwise (so
1500000 µs renders as "1500ms"). -/
theorem c2_exposure_format :
    opsText (V20.exposureOps 125) = "1/8000" ∧
    opsText (V20.exposureOps 1500000) = "1500ms" ∧
    (∀ e : Nat, 0 < e → e < 1000000 →
      opsText (V20.exposureOps e) =
        "1/" ++ toString (roundHalfUp ((1000000 : ℚ) / (e : ℚ)))) ∧
    (∀ e : Nat, 1000000 ≤ e →
      opsText (V20.exposureOps e) = toString (e / 1000) ++ "ms") := by
  refine ⟨?_, by decide, ?_, ?_⟩
  · have h8 : recipRound 125 = 8000 := by
      have h : ⌊(1 : ℚ) / (((125 : Nat) : ℚ) / 1000000) + 1/2⌋ = 8000 := by
        norm_num
      rw [recipRound, roundHalfUp, h]
      rfl
    simp only [V20.exposureOps, V20.ONE_SECOND,
      if_pos (by norm_num : (125 : Nat) < 1000000), h8]
    decide
  · intro e h0 hlt
    rw [← recip_eq e]
    simp only [V20.exposureOps, V20.ONE_SECOND, if_pos hlt, opsText]
    simp
  · intro e h
    simp only [V20.exposureOps, V20.ONE_SECOND, if_neg (not_lt.2 h), opsText]
    simp

/-- C2 witness: the theorem applied at the concrete exposures 250 µs and
2000000 µs. -/
theorem c2_exposure_format_witness :
    opsText (V20.exposureOps 250) =
      "1/" ++ toString (roundHalfUp ((1000000 : ℚ) / ((250 : Nat) : ℚ))) ∧
    opsText (V20.exposureOps 2000000) = toString (2000000 / 1000) ++ "ms" :=
  ⟨c2_exposure_format.2.2.1 250 (by decide) (by decide),
   c2_exposure_format.2.2.2 2000000 (by decide)⟩

/-- C3: with a channel still armed for its rise and no timestamp recorded,
two deliveries of the rise handler record exactly one rise timestamp, the
one read at the first delivery; the second delivery does not overwrite it. -/
theorem c3_duplicate_rise_guard (st : MeasState) (t1 t2 : Nat)
    (hready : st.dataReady = false) (harm : st.ch1 = ChMode.armedForRise)
    (hunset : st.s1rise = 0) (ht : t1 ≠ 0) :
    (V20.s1_down st t1).s1rise = t1 ∧
    (V20.s1_down (V20.s1_down st t1) t2).s1rise = t1 := by
  constructor
  · simp [V20.s1_down, hready, hunset]
  · simp [V20.s1_down, hready, hunset, ht]

/-- C3 witness: the theorem applied to the freshly armed state with edges at
5 µs and 9 µs. -/
theorem c3_duplicate_rise_guard_witness :
    (V20.s1_down initState 5).s1rise = 5 ∧
    (V20.s1_down (V20.s1_down initState 5) 9).s1rise = 5 :=
  c3_duplicate_rise_guard initState 5 9 rfl rfl rfl (by decide)

/-- C4: the completion poll fires at any state with all four timestamps
non-sentinel and `dataReady` clear, and once it has fired, any further polls
interleaved with hardware edges (anything except the reset callback) return
false, leave the state untouched and produce no display operations. -/
theorem c4_poll_once :
    (∀ st : MeasState, st.dataReady = false → st.s1rise ≠ 0 → st.s1fall ≠ 0 →
      st.s2rise ≠ 0 → st.s2fall ≠ 0 → (pollCompletion st).1 = true) ∧
    (∀ st : MeasState, (pollCompletion st).1 = true →
      ∀ evs : List Ev, (∀ e ∈ evs, e ≠ Ev.timerFire) →
        pollCompletion (List.foldl V20.step (pollCompletion st).2 evs) =
            (false, (pollCompletion st).2) ∧
          (V20.loopStep (List.foldl V20.step (pollCompletion st).2 evs)).2 =
            []) := by
  constructor
  · intro st h0 h1 h2 h3 h4
    have hc : dataComplete st = true := (dataComplete_iff st).2 ⟨h0, h1, h2, h3, h4⟩
    simp [pollCompletion, hc]
  · intro st h evs hne
    have hr : (pollCompletion st).2.dataReady = true := poll_fst_ready st h
    rw [ready_foldl evs (pollCompletion st).2 hr hne]
    refine ⟨ready_poll _ hr, ?_⟩
    rw [V20.loopStep, ready_poll _ hr]
    simp

/-- C4 witness: on the complete sample state, the poll fires once, and after
a further poll and a straggling edge it reports false with the state
unchanged. -/
theorem c4_poll_once_witness :
    (pollCompletion sampleComplete).1 = true ∧
    pollCompletion
        (List.foldl V20.step (pollCompletion sampleComplete).2
          [Ev.poll, Ev.e1rise 7]) =
      (false, (pollCompletion sampleComplete).2) :=
  ⟨c4_poll_once.1 sampleComplete rfl (by decide) (by decide) (by decide)
      (by decide),
   (c4_poll_once.2 sampleComplete
      (c4_poll_once.1 sampleComplete rfl (by decide) (by decide) (by decide)
        (by decide))
      [Ev.poll, Ev.e1rise 7] (by decide)).1⟩

/-- C5: after a re-arm from any prior state, all four timestamp slots read
the unset sentinel 0, the `dataReady` flag is cleared, and both channels are
armed for their initial edge polarity. -/
theorem c5_reset_clears (st : MeasState) :
    (V20.resetMeasuredData st).s1rise = 0 ∧
    (V20.resetMeasuredData st).s1fall = 0 ∧
    (V20.resetMeasuredData st).s2rise = 0 ∧
    (V20.resetMeasuredData st).s2fall = 0 ∧
    (V20.resetMeasuredData st).dataReady = false ∧
    (V20.resetMeasuredData st).ch1 = ChMode.armedForRise ∧
    (V20.resetMeasuredData st).ch2 = ChMode.armedForRise := by
  simp [V20.resetMeasuredData, V20.initInterrupts]

/-- C6 counterexample: at 32768000 µs the whole-millisecond part 32768 is
nonzero, yet the conversion of 32768 to the 16-bit C `int` variable wraps to
-32768, so printRightAlignedMs takes the special-case column 10 instead of
the right-aligned column 11 - 5 = 6 that the decimal digit count of 32768
dictates; the alignment clause of the claim fails there. -/
theorem c6_align_counterexample :
    32768000 / 1000 ≠ 0 ∧
    V21.printRightAlignedMs_col 32768000 = 10 ∧
    (10 : Int) ≠ 11 - ((Nat.digits 10 (32768000 / 1000)).length : Int) := by
  refine ⟨by decide, by decide, ?_⟩
  rw [show (32768000 / 1000 : Nat) = 32768 from by decide,
    Nat.digits_len 10 32768 (by norm_num) (by norm_num),
    Nat.log_eq_of_pow_le_of_lt_pow (m := 4) (by norm_num) (by norm_num)]
  norm_num

/-- C6 as amended: a zero whole-millisecond part is special-cased to the
fixed column 10 with no log10 evaluation, and a nonzero whole part within
the 16-bit `int` range (at most 32767) is placed at the column right-aligned
from its decimal digit count; beyond that range the `int` conversion wraps
and the special-case column is used instead. -/
theorem c6_align_amended (ms : Nat) :
    (ms / 1000 = 0 → V21.printRightAlignedMs_col ms = 10) ∧
    (0 < ms / 1000 → ms / 1000 ≤ 32767 →
      V21.printRightAlignedMs_col ms =
        11 - ((Nat.digits 10 (ms / 1000)).length : Int)) := by
  constructor
  · intro h
    rw [V21.printRightAlignedMs_col, h]
    norm_num [i16]
  · intro h1 h2
    have hi : i16 (ms / 1000) = ((ms / 1000 : Nat) : Int) := i16_small _ h2
    rw [V21.printRightAlignedMs_col, hi,
      if_pos (by exact_mod_cast h1 : (0 : Int) < ((ms / 1000 : Nat) : Int)),
      intLog10Floor, Int.toNat_natCast,
      Nat.digits_len 10 (ms / 1000) (by norm_num) (Nat.pos_iff_ne_zero.1 h1)]
    push_cast
    ring

/-- C6 witness: the amended theorem applied at 500 µs (zero whole part) and
at 45000 µs (whole part 45, two digits, column 9). -/
theorem c6_align_amended_witness :
    V21.printRightAlignedMs_col 500 = 10 ∧
    V21.printRightAlignedMs_col 45000 =
      11 - ((Nat.digits 10 (45000 / 1000)).length : Int) :=
  ⟨(c6_align_amended 500).1 (by decide),
   (c6_align_amended 45000).2 (by decide) (by decide)⟩

/-- C7 counterexample: at the sample state whose sensor-1 fall (500) precedes
its rise (1000), the completion poll still fires and the loop writes display
operations, contradicting the claim that such a cycle is discarded with
nothing written to the display. -/
theorem c7_invalid_counterexample :
    sampleInvalid.s1fall < sampleInvalid.s1rise ∧
    (pollCompletion sampleInvalid).1 = true ∧
    (V20.loopStep sampleInvalid).2 ≠ [] := by
  refine ⟨by decide, by decide, ?_⟩
  have h : (pollCompletion sampleInvalid).1 = true := by decide
  rw [V20.loopStep]
  simp only [h, if_pos]
  simp [V20.onDataReady, V20.printResults]

/-- C7 as amended: the code performs no ordering validation at all: a
completed cycle with a fall timestamp before the corresponding rise is still
latched by the poll, its derived values are computed with 32-bit wrapping
unsigned subtraction, and the results are written to the display. -/
theorem c7_invalid_displayed (st : MeasState)
    (h0 : st.dataReady = false) (h1 : st.s1rise ≠ 0) (h2 : st.s1fall ≠ 0)
    (h3 : st.s2rise ≠ 0) (h4 : st.s2fall ≠ 0)
    (hlt : st.s1fall < st.s1rise) :
    (pollCompletion st).1 = true ∧
    (pollCompletion st).2.dataReady = true ∧
    (V20.loopStep st).2 = V20.onDataReady st ∧
    V20.onDataReady st ≠ [] := by
  have hc : dataComplete st = true := (dataComplete_iff st).2 ⟨h0, h1, h2, h3, h4⟩
  have hf : (pollCompletion st).1 = true := by simp [pollCompletion, hc]
  refine ⟨hf, poll_fst_ready st hf, ?_, ?_⟩
  · rw [V20.loopStep]
    simp [hf]
  · simp [V20.onDataReady, V20.printResults]

/-- C7 witness: the amended theorem applied at the invalid sample state. -/
theorem c7_invalid_displayed_witness :
    (pollCompletion sampleInvalid).1 = true ∧
    (pollCompletion sampleInvalid).2.dataReady = true ∧
    (V20.loopStep sampleInvalid).2 = V20.onDataReady sampleInvalid ∧
    V20.onDataReady sampleInvalid ≠ [] :=
  c7_invalid_displayed sampleInvalid rfl (by decide) (by decide) (by decide)
    (by decide) (by decide)

/-- C8: the v2.1 rise handler of sensor 1 schedules the watchdog reset
callback; while the cycle is missing the sensor-2 fall the loop writes
nothing to the display; when the scheduled callback fires it forces a reset
to the fully armed initial state, with every timestamp back at the sentinel
and both channels armed for their initial edge, and polling that state again
writes nothing. -/
theorem c8_watchdog_reset (st : MeasState) (v : Nat)
    (h : st.dataReady = false) :
    (V21.s1_down st v).watchdogPending = true ∧
    (V21.s1_down initState v).s1fall = 0 ∧
    (V21.s1_down initState v).s2rise = 0 ∧
    (V21.s1_down initState v).s2fall = 0 ∧
    (V21.loopStep (V21.s1_down initState v)).2 = [] ∧
    (st.watchdogPending = true → V21.timerFire st = initState) ∧
    (V21.loopStep initState).2 = [] := by
  refine ⟨?_, by simp [V21.s1_down, initState], by simp [V21.s1_down, initState],
    by simp [V21.s1_down, initState], ?_, ?_, by decide⟩
  · simp [V21.s1_down, h]
  · rw [V21.loopStep]
    have hc : dataComplete (V21.s1_down initState v) = false := by
      simp [V21.s1_down, initState, dataComplete]
    simp [pollCompletion, hc]
  · intro hw
    rw [V21.timerFire, if_pos hw]
    rfl

/-- C8 witness: the theorem applied to the stall scenario in which only the
sensor-1 rise at 7 µs was captured. -/
theorem c8_watchdog_reset_witness :
    (V21.s1_down initState 7).watchdogPending = true ∧
    V21.timerFire (V21.s1_down initState 7) = initState :=
  ⟨(c8_watchdog_reset initState 7 rfl).1,
   (c8_watchdog_reset (V21.s1_down initState 7) 7 (by decide)).2.2.2.2.2.1
     (by decide)⟩

/-- Property that a set `dataReady` flag implies all four timestamp slots are
away from the sentinel. -/
def readyImpliesFull (st : MeasState) : Prop :=
  st.dataReady = true →
    st.s1rise ≠ 0 ∧ st.s1fall ≠ 0 ∧ st.s2rise ≠ 0 ∧ st.s2fall ≠ 0

lemma readyImpliesFull_step (st : MeasState) (e : Ev)
    (h : readyImpliesFull st) : readyImpliesFull (V20.step st e) := by
  cases e with
  | e1rise t =>
      by_cases hd : st.dataReady = true
      · simpa [V20.step, V20.s1_down, hd] using h
      · intro habs
        simp [V20.step, V20.s1_down, hd] at habs
  | e1fall t =>
      by_cases hd : st.dataReady = true
      · simpa [V20.step, V20.s1_up, hd] using h
      · intro habs
        simp [V20.step, V20.s1_up, hd] at habs
  | e2rise t =>
      by_cases hd : st.dataReady = true
      · simpa [V20.step, V20.s2_down, hd] using h
      · intro habs
        simp [V20.step, V20.s2_down, hd] at habs
  | e2fall t =>
      by_cases hd : st.dataReady = true
      · simpa [V20.step, V20.s2_up, hd] using h
      · intro habs
        simp [V20.step, V20.s2_up, hd] at habs
  | poll =>
      by_cases hc : dataComplete st = true
      · have hn := (dataComplete_iff st).1 hc
        intro _
        simp [V20.step, pollCompletion, hc]
        exact ⟨hn.2.1, hn.2.2.1, hn.2.2.2.1, hn.2.2.2.2⟩
      · simpa [V20.step, pollCompletion, hc] using h
  | timerFire =>
      by_cases hw : st.watchdogPending = true
      · intro habs
        simp [V20.step, hw, V20.resetMeasuredData, V20.initInterrupts] at habs
      · simpa [V20.step, hw] using h

lemma readyImpliesFull_foldl (evs : List Ev) (st : MeasState)
    (h : readyImpliesFull st) :
    readyImpliesFull (List.foldl V20.step st evs) := by
  induction evs generalizing st with
  | nil => exact h
  | cons e rest ih => exact ih _ (readyImpliesFull_step st e h)

/-- C9: in every state reachable from setup, a set `dataReady` flag implies
all four timestamp slots are nonzero; every interrupt handler leaves the
state untouched while `dataReady` is set; from a state with `dataReady`
clear, only the main-loop poll can set it, and only after observing all four
slots nonzero; and the only event that clears a set `dataReady` also clears
all four slots with it. -/
theorem c9_dataready_invariant :
    (∀ evs : List Ev, (V20.run evs).dataReady = true →
      (V20.run evs).s1rise ≠ 0 ∧ (V20.run evs).s1fall ≠ 0 ∧
        (V20.run evs).s2rise ≠ 0 ∧ (V20.run evs).s2fall ≠ 0) ∧
    (∀ (st : MeasState) (t : Nat), st.dataReady = true →
      V20.s1_down st t = st ∧ V20.s1_up st t = st ∧
        V20.s2_down st t = st ∧ V20.s2_up st t = st) ∧
    (∀ (st : MeasState) (e : Ev), st.dataReady = false →
      (V20.step st e).dataReady = true →
        e = Ev.poll ∧ st.s1rise ≠ 0 ∧ st.s1fall ≠ 0 ∧
          st.s2rise ≠ 0 ∧ st.s2fall ≠ 0) ∧
    (∀ (st : MeasState) (e : Ev), st.dataReady = true →
      (V20.step st e).dataReady = false →
        (V20.step st e).s1rise = 0 ∧ (V20.step st e).s1fall = 0 ∧
          (V20.step st e).s2rise = 0 ∧ (V20.step st e).s2fall = 0) := by
  refine ⟨?_, ?_, ?_, ?_⟩
  · intro evs
    exact readyImpliesFull_foldl evs initState (by intro h; cases h)
  · intro st t hd
    exact ⟨by simp [V20.s1_down, hd], by simp [V20.s1_up, hd],
      by simp [V20.s2_down, hd], by simp [V20.s2_up, hd]⟩
  · intro st e hd habs
    cases e with
    | e1rise t => simp [V20.step, V20.s1_down, hd] at habs
    | e1fall t => simp [V20.step, V20.s1_up, hd] at habs
    | e2rise t => simp [V20.step, V20.s2_down, hd] at habs
    | e2fall t => simp [V20.step, V20.s2_up, hd] at habs
    | poll =>
        by_cases hc : dataComplete st = true
        · have hn := (dataComplete_iff st).1 hc
          exact ⟨rfl, hn.2.1, hn.2.2.1, hn.2.2.2.1, hn.2.2.2.2⟩
        · simp [V20.step, pollCompletion, hc, hd] at habs
    | timerFire =>
        by_cases hw : st.watchdogPending = true
        · simp [V20.step, hw, V20.resetMeasuredData, V20.initInterrupts] at habs
        · simp [V20.step, hw, hd] at habs
  · intro st e hd habs
    cases e with
    | e1rise t => simp [V20.step, V20.s1_down, hd] at habs
    | e1fall t => simp [V20.step, V20.s1_up, hd] at habs
    | e2rise t => simp [V20.step, V20.s2_down, hd] at habs
    | e2fall t => simp [V20.step, V20.s2_up, hd] at habs
    | poll =>
        rw [V20.step, ready_poll st hd] at habs ⊢
        simp [hd] at habs
    | timerFire =>
        by_cases hw : st.watchdogPending = true
        · simp [V20.step, hw, V20.resetMeasuredData, V20.initInterrupts]
        · simp [V20.step, hw, hd] at habs

/-- C9 witness: the reachability clause applied to the concrete event trace
rise 5, fall 9, rise 6, fall 11, poll, after which `dataReady` is set. -/
theorem c9_dataready_invariant_witness :
    (V20.run [Ev.e1rise 5, Ev.e1fall 9, Ev.e2rise 6, Ev.e2fall 11,
        Ev.poll]).s1rise ≠ 0 ∧
    (V20.run [Ev.e1rise 5, Ev.e1fall 9, Ev.e2rise 6, Ev.e2fall 11,
        Ev.poll]).s1fall ≠ 0 ∧
    (V20.run [Ev.e1rise 5, Ev.e1fall 9, Ev.e2rise 6, Ev.e2fall 11,
        Ev.poll]).s2rise ≠ 0 ∧
    (V20.run [Ev.e1rise 5, Ev.e1fall 9, Ev.e2rise 6, Ev.e2fall 11,
        Ev.poll]).s2fall ≠ 0 :=
  c9_dataready_invariant.1
    [Ev.e1rise 5, Ev.e1fall 9, Ev.e2rise 6, Ev.e2fall 11, Ev.poll]
    (by decide)

/-- C10: a zero exposure takes the sub-second branch of the formatter, which
then divides by a divisor equal to zero; the sub-second branch is the one
taken for every exposure below one second, so no branch guards the zero
value away from the reciprocal. -/
theorem c10_zero_exposure_division :
    V20.exposureRecipDivisor 0 = some 0 ∧
    (∀ e : Nat, V20.exposureRecipDivisor e = none ↔ 1000000 ≤ e) ∧
    V20.exposureOps 0 =
      [DispOp.printStr "1/", DispOp.printStr (toString (recipRound 0))] := by
  refine ⟨?_, ?_, ?_⟩
  · simp [V20.exposureRecipDivisor, V20.ONE_SECOND]
  · intro e
    rw [V20.exposureRecipDivisor, V20.ONE_SECOND]
    split_ifs with hlt
    · simp
      omega
    · simp
      omega
  · simp only [V20.exposureOps, V20.ONE_SECOND,
      if_pos (by norm_num : (0 : Nat) < 1000000)]
